import Mathlib

set_option maxHeartbeats 1000000

/-
Shallow embedding of the execution engine in src/quant_backtester_core.py
(class QuantEngineV2 and class StrategyConfig).

Modelling conventions:
  * Python floats are modelled as rationals (the engine only adds, subtracts,
    multiplies, divides and rounds; all of its arithmetic is exact over the
    rationals).
  * A pandas row is modelled as a record of optional fields; the accessor
    row[k] (which raises KeyError on a missing column) is a match returning
    Except.error, and row.get(k, d) is Option.getD.
  * A timestamp carries a calendar date (as an integer day index) and a
    time of day in seconds since midnight.  datetime.time comparison is
    comparison of the second counts; the window check normalises the time
    to HH:MM:00, i.e. floors it to the minute, exactly as the source does.
  * np.round rounds half to even, modelled by roundHalfEven below.
  * int(np.floor(x)) on a rational is the integer floor.
-/

inductive Direction
  | Long
  | Short
  | Both
  deriving DecidableEq, Repr

inductive ExecMode
  | Optimista
  | Pesimista
  | OHLC
  deriving DecidableEq, Repr

/-- The close reasons the engine can record: the string written into the
ledger at line 222 of the source is "SL", "TP" or "ForceClose". -/
inductive Reason
  | TP
  | SL
  | ForceClose
  deriving DecidableEq, Repr

inductive SideName
  | Long
  | Short
  deriving DecidableEq, Repr

structure Timestamp where
  date : ℤ
  secs : ℕ
  deriving DecidableEq, Repr

structure AssetSpec where
  tick_size : ℚ
  tick_value : ℚ
  points_full_value : ℚ
  commission : ℚ
  avg_slippage_ticks : ℕ
  deriving DecidableEq, Repr

/-- The ASSET_SPECS table of the source (10.40 = 52/5, 13.40 = 67/5). -/
def ASSET_SPECS : List (String × AssetSpec) :=
  [("NQ", ⟨1/4, 5, 20, 52/5, 2⟩),
   ("ES", ⟨1/4, 25/2, 50, 52/5, 1⟩),
   ("YM", ⟨1, 5, 5, 52/5, 1⟩),
   ("GC", ⟨1/10, 10, 100, 67/5, 1⟩),
   ("CL", ⟨1/100, 10, 1000, 67/5, 2⟩)]

/-- ASSET_SPECS.get(asset_name, ASSET_SPECS["NQ"]). -/
def specOf (asset_name : String) : AssetSpec :=
  (ASSET_SPECS.lookup asset_name).getD ⟨1/4, 5, 20, 52/5, 2⟩

/-- The attributes StrategyConfig.__init__ stores, with the derived fields
comm_per_side, slippage_points and be_offset already computed. -/
structure StrategyConfig where
  risk_usd : ℚ
  reward_ratio : ℚ
  be_trigger_r : ℚ
  tick_size : ℚ
  tick_value : ℚ
  points_full_value : ℚ
  comm_per_side : ℚ
  slippage_points : ℚ
  be_offset : ℚ
  max_trades_per_day : ℤ
  trading_windows : List (ℕ × ℕ)
  force_close_time : ℕ
  direction : Direction
  execution_mode : ExecMode
  deriving DecidableEq, Repr

/-- StrategyConfig.__init__: looks up the asset spec and derives
comm_per_side = commission / 2, slippage_points = avg_slippage_ticks *
tick_size, be_offset = be_offset_ticks * tick_size. -/
def mkStrategyConfig (asset_name : String) (risk_usd rewardR be_trigger_r : ℚ)
    (be_offset_ticks : ℤ) (max_trades_per_day : ℤ)
    (trading_windows : List (ℕ × ℕ)) (force_close_time : ℕ)
    (direction : Direction) (execution_mode : ExecMode) : StrategyConfig :=
  let spec := specOf asset_name
  { risk_usd := risk_usd
    reward_ratio := rewardR
    be_trigger_r := be_trigger_r
    tick_size := spec.tick_size
    tick_value := spec.tick_value
    points_full_value := spec.points_full_value
    comm_per_side := spec.commission / 2
    slippage_points := (spec.avg_slippage_ticks : ℚ) * spec.tick_size
    be_offset := (be_offset_ticks : ℚ) * spec.tick_size
    max_trades_per_day := max_trades_per_day
    trading_windows := trading_windows
    force_close_time := force_close_time
    direction := direction
    execution_mode := execution_mode }

/-- The active-trade dictionary t built at lines 285-295 of the source. -/
structure Trade where
  id : ℕ
  ptype : ℤ
  entry : ℚ
  sl : ℚ
  tp : ℚ
  qty : ℤ
  risk_pts : ℚ
  be_active : Bool
  time : Timestamp
  deriving DecidableEq, Repr

/-- The ledger entry appended at lines 211-223 of the source. -/
structure TradeRecord where
  id : ℕ
  date : ℤ
  entry_time : Timestamp
  exit_time : Timestamp
  side : SideName
  qty : ℤ
  entry : ℚ
  exit : ℚ
  pnl_usd : ℚ
  pnl_r : ℚ
  reason : Reason
  deriving DecidableEq, Repr

/-- One row of the feed DataFrame; a missing column is a none field. -/
structure Row where
  timestamp_ny : Option Timestamp
  open_adj : Option ℚ
  high_adj : Option ℚ
  low_adj : Option ℚ
  close_adj : Option ℚ
  sig_long : Option Bool
  sig_short : Option Bool
  sl_level : Option ℚ
  tp_level : Option ℚ
  deriving DecidableEq, Repr

/-- The mutable run state: self.trades, self.current_day_trades,
self.last_date, and the pair (in_pos, t) folded into an Option. -/
structure EngineState where
  trades : List TradeRecord
  current_day_trades : ℕ
  last_date : Option ℤ
  pos : Option Trade
  deriving DecidableEq, Repr

structure BarVals where
  open_p : ℚ
  high : ℚ
  low : ℚ
  close_p : ℚ
  deriving DecidableEq, Repr

/-- np.round on a scalar: round half to even. -/
def roundHalfEven (q : ℚ) : ℤ :=
  let f := ⌊q⌋
  if q - f < 1/2 then f
  else if (1 : ℚ)/2 < q - f then f + 1
  else if f % 2 = 0 then f else f + 1

/-- QuantEngineV2._round_to_tick: np.round(price / tick_size) * tick_size. -/
def round_to_tick (cfg : StrategyConfig) (price : ℚ) : ℚ :=
  (roundHalfEven (price / cfg.tick_size) : ℚ) * cfg.tick_size

/-- self.config.direction in ["Long", "Both"]. -/
def dirLongOK : Direction → Bool
  | .Long => true
  | .Both => true
  | .Short => false

/-- self.config.direction in ["Short", "Both"]. -/
def dirShortOK : Direction → Bool
  | .Short => true
  | .Both => true
  | .Long => false

/-- QuantEngineV2._is_in_trading_window: an empty window list means always
inside; otherwise the current time is normalised to HH:MM:00 (floored to
the minute) and tested against each inclusive window. -/
def is_in_trading_window (cfg : StrategyConfig) (curr_dt : Timestamp) : Bool :=
  if cfg.trading_windows = [] then true
  else
    let curr_time := curr_dt.secs / 60 * 60
    cfg.trading_windows.any fun w => decide (w.1 ≤ curr_time ∧ curr_time ≤ w.2)

/-- QuantEngineV2._resolve_intra_candle, lines 102-153 of the source,
transcribed branch by branch (high >= x is written x ≤ high, etc.). -/
def resolve_intra_candle (cfg : StrategyConfig) (v : BarVals) (t : Trade) :
    Option Reason :=
  match cfg.execution_mode with
  | .Optimista =>
    if t.ptype = 1 then
      if t.tp ≤ v.high then some Reason.TP
      else if v.low ≤ t.sl then some Reason.SL
      else none
    else
      if v.low ≤ t.tp then some Reason.TP
      else if t.sl ≤ v.high then some Reason.SL
      else none
  | .Pesimista =>
    if t.ptype = 1 then
      if v.low ≤ t.sl then some Reason.SL
      else if t.tp ≤ v.high then some Reason.TP
      else none
    else
      if t.sl ≤ v.high then some Reason.SL
      else if v.low ≤ t.tp then some Reason.TP
      else none
  | .OHLC =>
    if t.ptype = 1 then
      if t.tp ≤ v.open_p then some Reason.TP
      else if v.open_p ≤ t.sl then some Reason.SL
      else if v.open_p ≤ v.close_p then
        if v.low ≤ t.sl then some Reason.SL
        else if t.tp ≤ v.high then some Reason.TP
        else none
      else
        if t.tp ≤ v.high then some Reason.TP
        else if v.low ≤ t.sl then some Reason.SL
        else none
    else
      if v.open_p ≤ t.tp then some Reason.TP
      else if t.sl ≤ v.open_p then some Reason.SL
      else if v.close_p ≤ v.open_p then
        if v.low ≤ t.tp then some Reason.TP
        else if t.sl ≤ v.high then some Reason.SL
        else none
      else
        if t.sl ≤ v.high then some Reason.SL
        else if v.low ≤ t.tp then some Reason.TP
        else none

/-- Lines 184-188 of the source: when break-even is not yet active and the
favorable excursion reaches risk_pts * be_trigger_r, arm it and move the
stop to entry + be_offset * type. -/
def applyBE (cfg : StrategyConfig) (t : Trade) (high low : ℚ) : Trade :=
  if t.be_active then t
  else if t.risk_pts * cfg.be_trigger_r ≤
      (if t.ptype = 1 then high - t.entry else t.entry - low) then
    { t with be_active := true, sl := t.entry + cfg.be_offset * (t.ptype : ℚ) }
  else t

/-- Lines 193-223 of the source: exit price, PnL and the appended ledger
entry.  n is len(self.trades) at close time. -/
def mkRecord (cfg : StrategyConfig) (n : ℕ) (t : Trade) (res : Option Reason)
    (close_p : ℚ) (curr_dt : Timestamp) : TradeRecord :=
  let exit_raw := if res = some Reason.SL then t.sl
                  else if res = some Reason.TP then t.tp else close_p
  let slippage := if res ≠ some Reason.TP then cfg.slippage_points else 0
  let exit_final := exit_raw - slippage * (t.ptype : ℚ)
  let usd_risk_at_stake := t.risk_pts * cfg.points_full_value * (t.qty : ℚ)
  let pnl_usd := (exit_final - t.entry) * (t.ptype : ℚ) * (t.qty : ℚ) *
                   cfg.points_full_value - (t.qty : ℚ) * cfg.comm_per_side * 2
  { id := n + 1
    date := curr_dt.date
    entry_time := t.time
    exit_time := curr_dt
    side := if t.ptype = 1 then SideName.Long else SideName.Short
    qty := t.qty
    entry := t.entry
    exit := exit_final
    pnl_usd := pnl_usd
    pnl_r := pnl_usd / usd_risk_at_stake
    reason := res.getD Reason.ForceClose }

/-- SECCIÓN B of the run loop (lines 238-299): entry evaluation.  Reached
on every bar on which no position survived section A; the source guard
`not in_pos and in_window` is the pos.isNone conjunct. -/
def sectionB (cfg : StrategyConfig) (s : EngineState) (row : Row)
    (curr_dt : Timestamp) : Except String EngineState :=
  let in_window := is_in_trading_window cfg curr_dt
  let is_long := s.pos.isNone && in_window && (row.sig_long.getD false) &&
                   dirLongOK cfg.direction
  let is_short := s.pos.isNone && in_window && (row.sig_short.getD false) &&
                    dirShortOK cfg.direction
  if is_long || is_short then
    match row.close_adj with
    | none => Except.error "KeyError: Close_adj"
    | some close_p =>
      match row.sl_level, row.tp_level with
      | some sl_raw, some tp_raw =>
        let ptype : ℤ := if is_long = true then 1 else -1
        let entry_p := round_to_tick cfg (close_p + cfg.slippage_points * (ptype : ℚ))
        let sl_p := round_to_tick cfg sl_raw
        let tp_p := round_to_tick cfg tp_raw
        let risk_execution_pts := |entry_p - sl_p|
        if 0 < risk_execution_pts then
          let risk_usd_contract := risk_execution_pts / cfg.tick_size * cfg.tick_value
          let qty : ℤ := ⌊cfg.risk_usd / risk_usd_contract⌋
          if 1 ≤ qty then
            Except.ok { s with
              current_day_trades := s.current_day_trades + 1,
              pos := some { id := s.trades.length + 1, ptype := ptype,
                            entry := entry_p, sl := sl_p, tp := tp_p, qty := qty,
                            risk_pts := risk_execution_pts, be_active := false,
                            time := curr_dt } }
          else Except.ok s
        else Except.ok s
      | _, _ => Except.error "KeyError: sl_level or tp_level"
  else Except.ok s

/-- The state after the close at lines 211-234: the record is appended and
in_pos becomes False. -/
def closeState (cfg : StrategyConfig) (s1 : EngineState) (t1 : Trade)
    (res : Option Reason) (close_p : ℚ) (curr_dt : Timestamp) : EngineState :=
  { s1 with
    trades := s1.trades ++ [mkRecord cfg s1.trades.length t1 res close_p curr_dt],
    pos := none }

/-- SECCIÓN A of the run loop (lines 179-236): resolve the bar against the
pre-adjustment stop, then apply break-even, then close if an exit reason or
the force-close time fired; a surviving position skips section B
(`if in_pos: continue`), a closed one falls through to it. -/
def sectionA (cfg : StrategyConfig) (s1 : EngineState) (t : Trade) (row : Row)
    (curr_dt : Timestamp) : Except String EngineState :=
  match row.high_adj with
  | none => Except.error "KeyError: High_adj"
  | some high =>
  match row.low_adj with
  | none => Except.error "KeyError: Low_adj"
  | some low =>
  match row.open_adj with
  | none => Except.error "KeyError: Open_adj"
  | some open_p =>
  match row.close_adj with
  | none => Except.error "KeyError: Close_adj"
  | some close_p =>
    let res := resolve_intra_candle cfg ⟨open_p, high, low, close_p⟩ t
    let t1 := applyBE cfg t high low
    if res.isSome = true ∨ cfg.force_close_time ≤ curr_dt.secs then
      sectionB cfg (closeState cfg s1 t1 res close_p curr_dt) row curr_dt
    else Except.ok { s1 with pos := some t1 }

/-- The day rollover at lines 175-177: reset the per-day counter and the
last-seen date; nothing else changes. -/
def resetDay (s : EngineState) (curr_date : ℤ) : EngineState :=
  if s.last_date = some curr_date then s
  else { s with current_day_trades := 0, last_date := some curr_date }

/-- One iteration of the run loop (lines 169-299). -/
def stepRow (cfg : StrategyConfig) (s : EngineState) (row : Row) :
    Except String EngineState :=
  match row.timestamp_ny with
  | none => Except.error "KeyError: Timestamp_NY"
  | some curr_dt =>
    let s1 := resetDay s curr_dt.date
    match s1.pos with
    | some t => sectionA cfg s1 t row curr_dt
    | none => sectionB cfg s1 row curr_dt

/-- The reset state at the top of run (lines 156-167). -/
def initState : EngineState := ⟨[], 0, none, none⟩

/-- The full replay loop, returning the final engine state. -/
def runStateRows (cfg : StrategyConfig) (rows : List Row) :
    Except String EngineState :=
  rows.foldlM (stepRow cfg) initState

/-- QuantEngineV2.run: replay the feed and return self.trades (line 301);
whatever is still held in the open position is not part of the output. -/
def runRows (cfg : StrategyConfig) (rows : List Row) :
    Except String (List TradeRecord) :=
  (runStateRows cfg rows).map EngineState.trades

/-
Helper lemmas about the embedded engine.
-/

theorem resetDay_pos (s : EngineState) (d : ℤ) : (resetDay s d).pos = s.pos := by
  unfold resetDay; split <;> rfl

theorem resetDay_trades (s : EngineState) (d : ℤ) :
    (resetDay s d).trades = s.trades := by
  unfold resetDay; split <;> rfl

theorem applyBE_id (cfg : StrategyConfig) (t : Trade) (high low : ℚ) :
    (applyBE cfg t high low).id = t.id := by
  unfold applyBE
  repeat' split
  all_goals rfl

theorem applyBE_ptype (cfg : StrategyConfig) (t : Trade) (high low : ℚ) :
    (applyBE cfg t high low).ptype = t.ptype := by
  unfold applyBE
  repeat' split
  all_goals rfl

theorem applyBE_entry (cfg : StrategyConfig) (t : Trade) (high low : ℚ) :
    (applyBE cfg t high low).entry = t.entry := by
  unfold applyBE
  repeat' split
  all_goals rfl

theorem applyBE_tp (cfg : StrategyConfig) (t : Trade) (high low : ℚ) :
    (applyBE cfg t high low).tp = t.tp := by
  unfold applyBE
  repeat' split
  all_goals rfl

theorem applyBE_qty (cfg : StrategyConfig) (t : Trade) (high low : ℚ) :
    (applyBE cfg t high low).qty = t.qty := by
  unfold applyBE
  repeat' split
  all_goals rfl

theorem applyBE_risk_pts (cfg : StrategyConfig) (t : Trade) (high low : ℚ) :
    (applyBE cfg t high low).risk_pts = t.risk_pts := by
  unfold applyBE
  repeat' split
  all_goals rfl

theorem applyBE_time (cfg : StrategyConfig) (t : Trade) (high low : ℚ) :
    (applyBE cfg t high low).time = t.time := by
  unfold applyBE
  repeat' split
  all_goals rfl

theorem applyBE_of_active (cfg : StrategyConfig) (t : Trade) (high low : ℚ)
    (h : t.be_active = true) : applyBE cfg t high low = t := by
  unfold applyBE; rw [h]; rfl

/-- The intrabar resolver never returns the administrative ForceClose
reason: its range is {none, TP, SL}. -/
theorem resolve_ne_ForceClose (cfg : StrategyConfig) (v : BarVals) (t : Trade) :
    resolve_intra_candle cfg v t ≠ some Reason.ForceClose := by
  unfold resolve_intra_candle
  split
  all_goals repeat' split
  all_goals simp

/-- The entry section leaves a state with an open position untouched:
both signal flags are forced to False by the `not in_pos` guard. -/
theorem sectionB_pos_some (cfg : StrategyConfig) (s : EngineState) (row : Row)
    (curr_dt : Timestamp) (t : Trade) (hpos : s.pos = some t) :
    sectionB cfg s row curr_dt = Except.ok s := by
  unfold sectionB
  have h : s.pos.isNone = false := by rw [hpos]; rfl
  simp [h]

/-- Shape of a successful entry section: the ledger is never touched, and
the position either stays what it was or is a fresh trade created on this
bar carrying the next dense id. -/
theorem sectionB_ok_shape (cfg : StrategyConfig) (s : EngineState) (row : Row)
    (curr_dt : Timestamp) (s' : EngineState)
    (h : sectionB cfg s row curr_dt = Except.ok s') :
    s'.trades = s.trades ∧
      (s'.pos = s.pos ∨ ∃ tn, s'.pos = some tn ∧
        tn.id = s.trades.length + 1 ∧ tn.time = curr_dt ∧ tn.be_active = false) := by
  rcases hc : row.close_adj with _ | close_p <;>
  rcases hsl : row.sl_level with _ | sl_raw <;>
  rcases htp : row.tp_level with _ | tp_raw <;>
  simp only [sectionB, hc, hsl, htp] at h <;>
  repeat' split at h
  all_goals first
    | exact Except.noConfusion h
    | (injection h with h2
       subst h2
       exact ⟨rfl, Or.inl rfl⟩)
    | (injection h with h2
       subst h2
       exact ⟨rfl, Or.inr ⟨_, rfl, rfl, rfl, rfl⟩⟩)

/-- Elimination principle for one loop iteration taken with an open
position: all five price columns were read successfully, and the step
either kept the (possibly break-even-adjusted) position open, or closed it
through closeState and fell through to the entry section. -/
theorem stepRow_open_elim (cfg : StrategyConfig) (s : EngineState) (row : Row)
    (s' : EngineState) (t : Trade) (hpos : s.pos = some t)
    (hok : stepRow cfg s row = Except.ok s') :
    ∃ dt high low open_p close_p,
      row.timestamp_ny = some dt ∧ row.high_adj = some high ∧
      row.low_adj = some low ∧ row.open_adj = some open_p ∧
      row.close_adj = some close_p ∧
      ((resolve_intra_candle cfg ⟨open_p, high, low, close_p⟩ t = none ∧
          ¬ cfg.force_close_time ≤ dt.secs ∧
          s' = { resetDay s dt.date with pos := some (applyBE cfg t high low) }) ∨
        (((resolve_intra_candle cfg ⟨open_p, high, low, close_p⟩ t).isSome = true ∨
            cfg.force_close_time ≤ dt.secs) ∧
          sectionB cfg
            (closeState cfg (resetDay s dt.date) (applyBE cfg t high low)
              (resolve_intra_candle cfg ⟨open_p, high, low, close_p⟩ t) close_p dt)
            row dt = Except.ok s')) := by
  rcases hts : row.timestamp_ny with _ | dt <;>
    simp only [stepRow, hts] at hok
  · exact Except.noConfusion hok
  · have hpos1 : (resetDay s dt.date).pos = some t := by
      rw [resetDay_pos]; exact hpos
    simp only [hpos1] at hok
    rcases hh : row.high_adj with _ | high <;>
    rcases hl : row.low_adj with _ | low <;>
    rcases ho : row.open_adj with _ | open_p <;>
    rcases hc : row.close_adj with _ | close_p <;>
    simp only [sectionA, hh, hl, ho, hc] at hok
    all_goals try exact Except.noConfusion hok
    refine ⟨dt, high, low, open_p, close_p, rfl, rfl, rfl, rfl, rfl, ?_⟩
    split at hok
    · exact Or.inr ⟨by assumption, hok⟩
    · rename_i hcond
      push_neg at hcond
      injection hok with h2
      subst h2
      exact Or.inl ⟨Option.not_isSome_iff_eq_none.mp (by simpa using hcond.1),
        not_le.mpr hcond.2, rfl⟩

/-- Elimination principle for one loop iteration taken while flat: the
step is the day rollover followed by the entry section. -/
theorem stepRow_flat_elim (cfg : StrategyConfig) (s : EngineState) (row : Row)
    (s' : EngineState) (hpos : s.pos = none)
    (hok : stepRow cfg s row = Except.ok s') :
    ∃ dt, row.timestamp_ny = some dt ∧
      sectionB cfg (resetDay s dt.date) row dt = Except.ok s' := by
  rcases hts : row.timestamp_ny with _ | dt <;>
    simp only [stepRow, hts] at hok
  · exact Except.noConfusion hok
  · have hpos1 : (resetDay s dt.date).pos = none := by
      rw [resetDay_pos]; exact hpos
    simp only [hpos1] at hok
    exact ⟨dt, rfl, hok⟩

theorem closeState_trades (cfg : StrategyConfig) (s1 : EngineState) (t1 : Trade)
    (res : Option Reason) (close_p : ℚ) (curr_dt : Timestamp) :
    (closeState cfg s1 t1 res close_p curr_dt).trades =
      s1.trades ++ [mkRecord cfg s1.trades.length t1 res close_p curr_dt] := rfl

theorem closeState_pos (cfg : StrategyConfig) (s1 : EngineState) (t1 : Trade)
    (res : Option Reason) (close_p : ℚ) (curr_dt : Timestamp) :
    (closeState cfg s1 t1 res close_p curr_dt).pos = none := rfl

theorem mkRecord_id (cfg : StrategyConfig) (n : ℕ) (t : Trade)
    (res : Option Reason) (close_p : ℚ) (curr_dt : Timestamp) :
    (mkRecord cfg n t res close_p curr_dt).id = n + 1 := rfl

/-- The run-state invariant: an open position always carries the id the
next appended ledger entry will get, and every ledger entry id is at most
the current ledger length (ids are the dense sequence 1..len). -/
def StateInv (s : EngineState) : Prop :=
  (∀ t, s.pos = some t → t.id = s.trades.length + 1) ∧
  (∀ r ∈ s.trades, r.id ≤ s.trades.length)

theorem stepRow_inv (cfg : StrategyConfig) (s : EngineState) (row : Row)
    (s' : EngineState) (hinv : StateInv s)
    (hok : stepRow cfg s row = Except.ok s') : StateInv s' := by
  rcases hp : s.pos with _ | t
  · obtain ⟨dt, _, hB⟩ := stepRow_flat_elim cfg s row s' hp hok
    obtain ⟨htr, hpos⟩ := sectionB_ok_shape cfg _ row dt s' hB
    rw [resetDay_trades] at htr
    constructor
    · intro tn hn
      rcases hpos with h1 | ⟨tn', h1, h2, _, _⟩
      · rw [h1, resetDay_pos, hp] at hn; exact Option.noConfusion hn
      · rw [h1] at hn
        injection hn with hn
        subst hn
        rw [htr, h2, resetDay_trades]
    · intro r hr
      rw [htr] at hr ⊢
      exact hinv.2 r hr
  · obtain ⟨dt, high, low, open_p, close_p, _, _, _, _, _, hcase⟩ :=
      stepRow_open_elim cfg s row s' t hp hok
    rcases hcase with ⟨_, _, hs'⟩ | ⟨_, hB⟩
    · subst hs'
      constructor
      · intro tn hn
        simp only [resetDay_trades]
        injection hn with hn
        subst hn
        rw [applyBE_id]
        exact hinv.1 t hp
      · intro r hr
        simp only [resetDay_trades] at hr ⊢
        exact hinv.2 r hr
    · obtain ⟨htr, hpos⟩ := sectionB_ok_shape cfg _ row dt s' hB
      rw [closeState_trades, resetDay_trades] at htr
      have hlen : s'.trades.length = s.trades.length + 1 := by
        rw [htr]; simp
      constructor
      · intro tn hn
        rcases hpos with h1 | ⟨tn', h1, h2, _, _⟩
        · rw [h1, closeState_pos] at hn; exact Option.noConfusion hn
        · rw [h1] at hn
          injection hn with hn
          subst hn
          rw [hlen, h2, closeState_trades, resetDay_trades]
          simp
      · intro r hr
        rw [htr] at hr
        rw [hlen]
        rcases List.mem_append.mp hr with h1 | h1
        · exact Nat.le_succ_of_le (hinv.2 r h1)
        · rcases List.mem_singleton.mp h1 with rfl
          simp [mkRecord_id]

theorem foldl_stepRow_inv (cfg : StrategyConfig) :
    ∀ (rows : List Row) (s0 s : EngineState), StateInv s0 →
      rows.foldlM (stepRow cfg) s0 = Except.ok s → StateInv s := by
  intro rows
  induction rows with
  | nil =>
    intro s0 s h0 hok
    injection hok with h2
    subst h2
    exact h0
  | cons r rs ih =>
    intro s0 s h0 hok
    rw [List.foldlM_cons] at hok
    rcases h1 : stepRow cfg s0 r with e | s1
    · rw [h1] at hok; exact Except.noConfusion hok
    · rw [h1] at hok
      exact ih s1 s (stepRow_inv cfg s0 r s1 h0 h1) hok

theorem initState_inv : StateInv initState := by
  constructor
  · intro t h; exact Option.noConfusion h
  · intro r hr; exact absurd hr (List.not_mem_nil r)

theorem runStateRows_inv (cfg : StrategyConfig) (rows : List Row)
    (s : EngineState) (hok : runStateRows cfg rows = Except.ok s) :
    StateInv s :=
  foldl_stepRow_inv cfg rows initState s initState_inv hok

/-- Characterisation of the ledger entry appended by a close: whenever one
loop iteration grows the ledger, the position was open before the step and
the new entry is exactly the mkRecord of lines 193-223, built from the
break-even-adjusted trade and the resolver verdict on the pre-adjustment
trade. -/
theorem stepRow_close_record (cfg : StrategyConfig) (s : EngineState)
    (row : Row) (s' : EngineState) (t : Trade) (r : TradeRecord)
    (hpos : s.pos = some t) (hok : stepRow cfg s row = Except.ok s')
    (happ : s'.trades = s.trades ++ [r]) :
    ∃ dt high low open_p close_p,
      row.timestamp_ny = some dt ∧ row.high_adj = some high ∧
      row.low_adj = some low ∧ row.open_adj = some open_p ∧
      row.close_adj = some close_p ∧
      ((resolve_intra_candle cfg ⟨open_p, high, low, close_p⟩ t).isSome = true ∨
        cfg.force_close_time ≤ dt.secs) ∧
      r = mkRecord cfg s.trades.length (applyBE cfg t high low)
            (resolve_intra_candle cfg ⟨open_p, high, low, close_p⟩ t) close_p dt := by
  obtain ⟨dt, high, low, open_p, close_p, h1, h2, h3, h4, h5, hcase⟩ :=
    stepRow_open_elim cfg s row s' t hpos hok
  rcases hcase with ⟨_, _, hs'⟩ | ⟨hcond, hB⟩
  · exfalso
    rw [hs'] at happ
    simp only [resetDay_trades] at happ
    have := congrArg List.length happ
    simp at this
  · obtain ⟨htr, _⟩ := sectionB_ok_shape cfg _ row dt s' hB
    rw [closeState_trades, resetDay_trades, happ] at htr
    have h6 := List.append_cancel_left htr
    have h7 : r = mkRecord cfg s.trades.length (applyBE cfg t high low)
        (resolve_intra_candle cfg ⟨open_p, high, low, close_p⟩ t) close_p dt := by
      injection h6
    exact ⟨dt, high, low, open_p, close_p, h1, h2, h3, h4, h5, hcond, h7⟩

theorem mkRecord_entry (cfg : StrategyConfig) (n : ℕ) (t : Trade)
    (res : Option Reason) (close_p : ℚ) (curr_dt : Timestamp) :
    (mkRecord cfg n t res close_p curr_dt).entry = t.entry := rfl

theorem mkRecord_qty (cfg : StrategyConfig) (n : ℕ) (t : Trade)
    (res : Option Reason) (close_p : ℚ) (curr_dt : Timestamp) :
    (mkRecord cfg n t res close_p curr_dt).qty = t.qty := rfl

theorem mkRecord_side (cfg : StrategyConfig) (n : ℕ) (t : Trade)
    (res : Option Reason) (close_p : ℚ) (curr_dt : Timestamp) :
    (mkRecord cfg n t res close_p curr_dt).side =
      if t.ptype = 1 then SideName.Long else SideName.Short := rfl

theorem mkRecord_reason (cfg : StrategyConfig) (n : ℕ) (t : Trade)
    (res : Option Reason) (close_p : ℚ) (curr_dt : Timestamp) :
    (mkRecord cfg n t res close_p curr_dt).reason = res.getD Reason.ForceClose := rfl

theorem mkRecord_exit (cfg : StrategyConfig) (n : ℕ) (t : Trade)
    (res : Option Reason) (close_p : ℚ) (curr_dt : Timestamp) :
    (mkRecord cfg n t res close_p curr_dt).exit =
      (if res = some Reason.SL then t.sl
       else if res = some Reason.TP then t.tp else close_p) -
      (if res ≠ some Reason.TP then cfg.slippage_points else 0) * (t.ptype : ℚ) := rfl

theorem mkRecord_pnl_usd (cfg : StrategyConfig) (n : ℕ) (t : Trade)
    (res : Option Reason) (close_p : ℚ) (curr_dt : Timestamp) :
    (mkRecord cfg n t res close_p curr_dt).pnl_usd =
      ((mkRecord cfg n t res close_p curr_dt).exit - t.entry) * (t.ptype : ℚ) *
        (t.qty : ℚ) * cfg.points_full_value -
        (t.qty : ℚ) * cfg.comm_per_side * 2 := rfl

theorem mkRecord_pnl_r (cfg : StrategyConfig) (n : ℕ) (t : Trade)
    (res : Option Reason) (close_p : ℚ) (curr_dt : Timestamp) :
    (mkRecord cfg n t res close_p curr_dt).pnl_r =
      (mkRecord cfg n t res close_p curr_dt).pnl_usd /
        (t.risk_pts * cfg.points_full_value * (t.qty : ℚ)) := rfl

/-- The numeric side of a ledger entry: Long is +1, Short is -1. -/
def sideval : SideName → ℚ
  | .Long => 1
  | .Short => -1

theorem applyBE_sl_triggered (cfg : StrategyConfig) (t : Trade) (high low : ℚ)
    (hbe : t.be_active = false)
    (htrig : t.risk_pts * cfg.be_trigger_r ≤
      (if t.ptype = 1 then high - t.entry else t.entry - low)) :
    (applyBE cfg t high low).sl = t.entry + cfg.be_offset * (t.ptype : ℚ) := by
  unfold applyBE
  rw [hbe]
  simp [htrig]

@[simp] theorem Option_none_ne_some {A : Type} (x : A) :
    ((none : Option A) = some x) = False :=
  eq_false fun h => Option.noConfusion h

@[simp] theorem Option_some_ne_none {A : Type} (x : A) :
    ((some x : Option A) = none) = False :=
  eq_false fun h => Option.noConfusion h

@[simp] theorem Reason_SL_ne_TP : (Reason.SL = Reason.TP) = False :=
  eq_false fun h => Reason.noConfusion h

@[simp] theorem Reason_TP_ne_SL : (Reason.TP = Reason.SL) = False :=
  eq_false fun h => Reason.noConfusion h

@[simp] theorem Reason_FC_ne_TP : (Reason.ForceClose = Reason.TP) = False :=
  eq_false fun h => Reason.noConfusion h

@[simp] theorem Reason_FC_ne_SL : (Reason.ForceClose = Reason.SL) = False :=
  eq_false fun h => Reason.noConfusion h

@[simp] theorem Reason_TP_ne_FC : (Reason.TP = Reason.ForceClose) = False :=
  eq_false fun h => Reason.noConfusion h

@[simp] theorem Reason_SL_ne_FC : (Reason.SL = Reason.ForceClose) = False :=
  eq_false fun h => Reason.noConfusion h

@[simp] theorem SideName_L_ne_S : (SideName.Long = SideName.Short) = False :=
  eq_false fun h => SideName.noConfusion h

@[simp] theorem SideName_S_ne_L : (SideName.Short = SideName.Long) = False :=
  eq_false fun h => SideName.noConfusion h

/-
Concrete fixtures used by counterexamples and witnesses.  cfgBase is a
synthetic instrument with tick 1 and point value 1 so that all arithmetic
stays small; each scenario adjusts only the fields it exercises.
-/

def cfgBase : StrategyConfig :=
  { risk_usd := 100
    reward_ratio := 2
    be_trigger_r := 100
    tick_size := 1
    tick_value := 1
    points_full_value := 1
    comm_per_side := 1
    slippage_points := 1
    be_offset := 0
    max_trades_per_day := -1
    trading_windows := [(0, 86400)]
    force_close_time := 86400
    direction := Direction.Both
    execution_mode := ExecMode.Optimista }

/-- Bar carrying a long signal at close 100 with sl_level 90, tp_level 200:
entry 101 (slippage +1), risk 11 points, qty 9. -/
def rowSigLong : Row :=
  { timestamp_ny := some ⟨0, 600⟩
    open_adj := some 100, high_adj := some 100, low_adj := some 100
    close_adj := some 100, sig_long := some true, sig_short := some false
    sl_level := some 90, tp_level := some 200 }

/-- Quiet bar on the same date: touches neither 90 nor 200, no signals. -/
def rowQuiet : Row :=
  { timestamp_ny := some ⟨0, 660⟩
    open_adj := some 100, high_adj := some 102, low_adj := some 99
    close_adj := some 101, sig_long := some false, sig_short := some false
    sl_level := some 90, tp_level := some 200 }

/-- Bar that touches the stop 90 (low 80) and also carries a fresh long
signal with sl_level 70. -/
def rowSLandSig : Row :=
  { timestamp_ny := some ⟨0, 660⟩
    open_adj := some 95, high_adj := some 100, low_adj := some 80
    close_adj := some 85, sig_long := some true, sig_short := some false
    sl_level := some 70, tp_level := some 200 }

/-- Claim C6: for every trade appended to the ledger, pnl_usd equals
(exit_price - entry_price) * side * quantity * points_full_value -
quantity * comm_per_side * 2, and pnl_r equals pnl_usd divided by
(risk_points * points_full_value * quantity). -/
theorem C6_pnl_reconciliation (cfg : StrategyConfig) (s : EngineState)
    (row : Row) (s' : EngineState) (t : Trade) (r : TradeRecord)
    (hpos : s.pos = some t) (hside : t.ptype = 1 ∨ t.ptype = -1)
    (hok : stepRow cfg s row = Except.ok s')
    (happ : s'.trades = s.trades ++ [r]) :
    r.pnl_usd = (r.exit - r.entry) * sideval r.side * (r.qty : ℚ) *
        cfg.points_full_value - (r.qty : ℚ) * cfg.comm_per_side * 2 ∧
    r.pnl_r = r.pnl_usd / (t.risk_pts * cfg.points_full_value * (t.qty : ℚ)) := by
  obtain ⟨dt, high, low, open_p, close_p, _, _, _, _, _, _, hr⟩ :=
    stepRow_close_record cfg s row s' t r hpos hok happ
  subst hr
  constructor
  · rw [mkRecord_pnl_usd, mkRecord_entry, mkRecord_qty, mkRecord_side,
      applyBE_ptype, applyBE_entry, applyBE_qty]
    rcases hside with h | h <;> rw [h] <;> norm_num [sideval]
  · rw [mkRecord_pnl_r, applyBE_risk_pts, applyBE_qty]

def tW6 : Trade := ⟨1, 1, 101, 90, 200, 9, 11, true, ⟨0, 600⟩⟩

def sW6 : EngineState := ⟨[], 0, some 0, some tW6⟩

def rW6 : TradeRecord :=
  ⟨1, 0, ⟨0, 600⟩, ⟨0, 660⟩, SideName.Long, 9, 101, 89, -126, -14/11, Reason.SL⟩

def sW6' : EngineState :=
  ⟨[rW6], 1, some 0, some ⟨2, 1, 86, 70, 200, 6, 16, false, ⟨0, 660⟩⟩⟩

theorem C6_pnl_reconciliation_witness :
    rW6.pnl_usd = (rW6.exit - rW6.entry) * sideval rW6.side * (rW6.qty : ℚ) *
        cfgBase.points_full_value - (rW6.qty : ℚ) * cfgBase.comm_per_side * 2 ∧
    rW6.pnl_r = rW6.pnl_usd /
        (tW6.risk_pts * cfgBase.points_full_value * (tW6.qty : ℚ)) :=
  C6_pnl_reconciliation cfgBase sW6 rowSLandSig sW6' tW6 rW6 rfl (Or.inl rfl)
    (by norm_num [stepRow, resetDay, sectionA, sectionB, closeState, mkRecord,
      resolve_intra_candle, applyBE, is_in_trading_window, round_to_tick,
      roundHalfEven, cfgBase, sW6, tW6, rowSLandSig, sW6', rW6, dirLongOK,
      dirShortOK, reduceCtorEq])
    (by norm_num [sW6', sW6, rW6])

/-- Claim C4 (amended): for every position close, exit_price equals
exit_raw - slippage_points * side except when the reason is TP (then no
slippage is applied); in particular a close forced by force_close_time
(reason ForceClose) exits at the bar's close price MINUS slippage, not
exactly at the close price, and no ForceClose_EOD or Session_Change
reasons exist. -/
theorem C4_close_slippage (cfg : StrategyConfig) (s : EngineState) (row : Row)
    (s' : EngineState) (t : Trade) (r : TradeRecord) (cp : ℚ)
    (hpos : s.pos = some t) (hbe : t.be_active = true)
    (hcp : row.close_adj = some cp)
    (hok : stepRow cfg s row = Except.ok s')
    (happ : s'.trades = s.trades ++ [r]) :
    (r.reason = Reason.TP → r.exit = t.tp) ∧
    (r.reason = Reason.SL → r.exit = t.sl - cfg.slippage_points * (t.ptype : ℚ)) ∧
    (r.reason = Reason.ForceClose →
      r.exit = cp - cfg.slippage_points * (t.ptype : ℚ)) := by
  obtain ⟨dt, high, low, open_p, close_p, _, _, _, _, hc5, _, hr⟩ :=
    stepRow_close_record cfg s row s' t r hpos hok happ
  rw [hcp] at hc5
  injection hc5 with hc5
  subst hc5
  rw [applyBE_of_active cfg t high low hbe] at hr
  subst hr
  rcases hres : resolve_intra_candle cfg ⟨open_p, high, low, cp⟩ t with _ | rsn
  · refine ⟨fun hre => ?_, fun hre => ?_, fun _ => ?_⟩
    · rw [mkRecord_reason] at hre; simp at hre
    · rw [mkRecord_reason] at hre; simp at hre
    · rw [mkRecord_exit]; simp
  · rcases rsn with _ | _ | _
    · refine ⟨fun _ => ?_, fun hre => ?_, fun hre => ?_⟩
      · rw [mkRecord_exit]; simp
      · rw [mkRecord_reason] at hre; simp at hre
      · rw [mkRecord_reason] at hre; simp at hre
    · refine ⟨fun hre => ?_, fun _ => ?_, fun hre => ?_⟩
      · rw [mkRecord_reason] at hre; simp at hre
      · rw [mkRecord_exit]; simp
      · rw [mkRecord_reason] at hre; simp at hre
    · exact absurd hres (resolve_ne_ForceClose cfg ⟨open_p, high, low, cp⟩ t)

def cfgW4 : StrategyConfig := { cfgBase with force_close_time := 57360 }

def tW4 : Trade := ⟨1, 1, 101, 90, 200, 9, 11, true, ⟨0, 600⟩⟩

def sW4 : EngineState := ⟨[], 0, some 0, some tW4⟩

/-- Bar at 57400 s (past force_close_time 57360) touching neither level. -/
def rowW4 : Row :=
  { timestamp_ny := some ⟨0, 57400⟩
    open_adj := some 100, high_adj := some 102, low_adj := some 99
    close_adj := some 100, sig_long := some false, sig_short := some false
    sl_level := some 90, tp_level := some 200 }

def rW4 : TradeRecord :=
  ⟨1, 0, ⟨0, 600⟩, ⟨0, 57400⟩, SideName.Long, 9, 101, 99, -36, -4/11,
    Reason.ForceClose⟩

def sW4' : EngineState := ⟨[rW4], 0, some 0, none⟩

/-- Claim C4 (counterexample): with slippage_points = 1, a long position
force-closed at close price 100 is recorded with exit 99, not 100: the
engine subtracts slippage on a ForceClose, contradicting the claim that a
force_close_time exit happens exactly at the bar's close price. -/
theorem C4_counterexample :
    stepRow cfgW4 sW4 rowW4 = Except.ok sW4' ∧
    rW4.reason = Reason.ForceClose ∧ rowW4.close_adj = some 100 ∧
    rW4.exit = 99 ∧ (99 : ℚ) ≠ 100 := by
  refine ⟨?_, rfl, rfl, rfl, by norm_num⟩
  norm_num [stepRow, resetDay, sectionA, sectionB, closeState, mkRecord,
    resolve_intra_candle, applyBE, is_in_trading_window, round_to_tick,
    roundHalfEven, cfgW4, cfgBase, sW4, tW4, rowW4, sW4', rW4, dirLongOK,
    dirShortOK]

theorem C4_close_slippage_witness :
    (rW4.reason = Reason.TP → rW4.exit = tW4.tp) ∧
    (rW4.reason = Reason.SL →
      rW4.exit = tW4.sl - cfgW4.slippage_points * (tW4.ptype : ℚ)) ∧
    (rW4.reason = Reason.ForceClose →
      rW4.exit = (100 : ℚ) - cfgW4.slippage_points * (tW4.ptype : ℚ)) :=
  C4_close_slippage cfgW4 sW4 rowW4 sW4' tW4 rW4 100 rfl rfl rfl
    (by norm_num [stepRow, resetDay, sectionA, sectionB, closeState, mkRecord,
      resolve_intra_candle, applyBE, is_in_trading_window, round_to_tick,
      roundHalfEven, cfgW4, cfgBase, sW4, tW4, rowW4, sW4', rW4, dirLongOK,
      dirShortOK])
    (by norm_num [sW4', sW4, rW4])

/-- Claim C10: when the break-even trigger fires on the same bar for which
the resolver (run first, against the pre-adjustment stop) returned SL, the
recorded exit price is computed from the post-adjustment break-even stop
entry + be_offset * side, not from the stop the resolver tested. -/
theorem C10_be_adjusted_exit (cfg : StrategyConfig) (s : EngineState)
    (row : Row) (s' : EngineState) (t : Trade) (dt : Timestamp)
    (high low open_p close_p : ℚ)
    (hpos : s.pos = some t)
    (hts : row.timestamp_ny = some dt) (hh : row.high_adj = some high)
    (hl : row.low_adj = some low) (ho : row.open_adj = some open_p)
    (hc : row.close_adj = some close_p)
    (hbe : t.be_active = false)
    (htrig : t.risk_pts * cfg.be_trigger_r ≤
      (if t.ptype = 1 then high - t.entry else t.entry - low))
    (hres : resolve_intra_candle cfg ⟨open_p, high, low, close_p⟩ t =
      some Reason.SL)
    (hok : stepRow cfg s row = Except.ok s') :
    ∃ r, s'.trades = s.trades ++ [r] ∧ r.reason = Reason.SL ∧
      r.exit = (t.entry + cfg.be_offset * (t.ptype : ℚ)) -
        cfg.slippage_points * (t.ptype : ℚ) := by
  obtain ⟨dt', high', low', open_p', close_p', h1, h2, h3, h4, h5, hcase⟩ :=
    stepRow_open_elim cfg s row s' t hpos hok
  rw [hts] at h1
  injection h1 with h1
  subst h1
  rw [hh] at h2
  injection h2 with h2
  subst h2
  rw [hl] at h3
  injection h3 with h3
  subst h3
  rw [ho] at h4
  injection h4 with h4
  subst h4
  rw [hc] at h5
  injection h5 with h5
  subst h5
  rcases hcase with ⟨hres0, _, _⟩ | ⟨_, hB⟩
  · rw [hres] at hres0
    exact Option.noConfusion hres0
  · obtain ⟨htr, _⟩ := sectionB_ok_shape cfg _ row dt s' hB
    rw [closeState_trades, resetDay_trades] at htr
    refine ⟨_, htr, ?_, ?_⟩
    · rw [mkRecord_reason, hres]
      rfl
    · rw [mkRecord_exit, hres,
        applyBE_sl_triggered cfg t high low hbe htrig, applyBE_ptype]
      simp

def cfgW10 : StrategyConfig := { cfgBase with be_trigger_r := 1, be_offset := 5 }

def tW10 : Trade := ⟨1, 1, 101, 90, 200, 9, 2, false, ⟨0, 600⟩⟩

def sW10 : EngineState := ⟨[], 0, some 0, some tW10⟩

/-- Bar whose high 104 arms break-even (excursion 3 ≥ risk 2 * trigger 1)
and whose low 89 touches the pre-adjustment stop 90. -/
def rowW10 : Row :=
  { timestamp_ny := some ⟨0, 660⟩
    open_adj := some 100, high_adj := some 104, low_adj := some 89
    close_adj := some 95, sig_long := some false, sig_short := some false
    sl_level := some 90, tp_level := some 200 }

def rW10 : TradeRecord :=
  ⟨1, 0, ⟨0, 600⟩, ⟨0, 660⟩, SideName.Long, 9, 101, 105, 18, 1, Reason.SL⟩

def sW10' : EngineState := ⟨[rW10], 0, some 0, none⟩

theorem C10_be_adjusted_exit_witness :
    ∃ r, sW10'.trades = sW10.trades ++ [r] ∧ r.reason = Reason.SL ∧
      r.exit = (tW10.entry + cfgW10.be_offset * (tW10.ptype : ℚ)) -
        cfgW10.slippage_points * (tW10.ptype : ℚ) :=
  C10_be_adjusted_exit cfgW10 sW10 rowW10 sW10' tW10 ⟨0, 660⟩ 104 89 100 95
    rfl rfl rfl rfl rfl rfl rfl
    (by norm_num [tW10, cfgW10, cfgBase])
    (by norm_num [resolve_intra_candle, cfgW10, cfgBase, tW10])
    (by norm_num [stepRow, resetDay, sectionA, sectionB, closeState, mkRecord,
      resolve_intra_candle, applyBE, is_in_trading_window, round_to_tick,
      roundHalfEven, cfgW10, cfgBase, sW10, tW10, rowW10, sW10', rW10,
      dirLongOK, dirShortOK])

/-- Claim C7: at most one position is open at any point: a step taken with
an open position either keeps that same trade (same id, entry, quantity,
target and entry time; only the stop and break-even flag can change), or
the position it holds afterwards was created only after the old one was
closed and appended to the ledger in that same step.  The entry section
itself is guarded by `not in_pos` and never fires while a position is
open. -/
theorem C7_single_position (cfg : StrategyConfig) (s : EngineState)
    (row : Row) (s' : EngineState) (t t' : Trade)
    (hpos : s.pos = some t) (hok : stepRow cfg s row = Except.ok s')
    (hpos' : s'.pos = some t') :
    (t'.id = t.id ∧ t'.entry = t.entry ∧ t'.qty = t.qty ∧ t'.tp = t.tp ∧
      t'.time = t.time ∧ s'.trades = s.trades) ∨
    ∃ r, s'.trades = s.trades ++ [r] := by
  obtain ⟨dt, high, low, open_p, close_p, _, _, _, _, _, hcase⟩ :=
    stepRow_open_elim cfg s row s' t hpos hok
  rcases hcase with ⟨_, _, hs'⟩ | ⟨_, hB⟩
  · subst hs'
    left
    have h2 : some (applyBE cfg t high low) = some t' := hpos'
    injection h2 with h2
    subst h2
    refine ⟨applyBE_id cfg t high low, applyBE_entry cfg t high low,
      applyBE_qty cfg t high low, applyBE_tp cfg t high low,
      applyBE_time cfg t high low, ?_⟩
    show (resetDay s dt.date).trades = s.trades
    exact resetDay_trades s dt.date
  · right
    obtain ⟨htr, _⟩ := sectionB_ok_shape cfg _ row dt s' hB
    rw [closeState_trades, resetDay_trades] at htr
    exact ⟨_, htr⟩

def tW7 : Trade := ⟨1, 1, 101, 90, 200, 9, 11, true, ⟨0, 600⟩⟩

def sW7 : EngineState := ⟨[], 0, some 0, some tW7⟩

def sW7' : EngineState := ⟨[], 0, some 0, some tW7⟩

theorem C7_single_position_witness :
    (tW7.id = tW7.id ∧ tW7.entry = tW7.entry ∧ tW7.qty = tW7.qty ∧
      tW7.tp = tW7.tp ∧ tW7.time = tW7.time ∧ sW7'.trades = sW7.trades) ∨
    ∃ r, sW7'.trades = sW7.trades ++ [r] :=
  C7_single_position cfgBase sW7 rowQuiet sW7' tW7 tW7 rfl
    (by norm_num [stepRow, resetDay, sectionA, sectionB, closeState, mkRecord,
      resolve_intra_candle, applyBE, is_in_trading_window, round_to_tick,
      roundHalfEven, cfgBase, sW7, tW7, rowQuiet, sW7', dirLongOK, dirShortOK])
    rfl

def tW9 : Trade := ⟨1, 1, 101, 90, 200, 9, 11, true, ⟨0, 600⟩⟩

def sW9 : EngineState := ⟨[], 0, some 0, some tW9⟩

def rW9 : TradeRecord :=
  ⟨1, 0, ⟨0, 600⟩, ⟨0, 660⟩, SideName.Long, 9, 101, 89, -126, -14/11, Reason.SL⟩

def tW9' : Trade := ⟨2, 1, 86, 70, 200, 6, 16, false, ⟨0, 660⟩⟩

def sW9' : EngineState := ⟨[rW9], 1, some 0, some tW9'⟩

/-- Claim C9 (counterexample): on the single bar at 660 s the engine both
closes the open position (ledger entry with exit_time 660, reason SL) and
opens a new position whose entry time is that same bar: after an exit the
loop falls through to the entry section instead of skipping it. -/
theorem C9_counterexample :
    stepRow cfgBase sW9 rowSLandSig = Except.ok sW9' ∧
    sW9'.trades = [rW9] ∧ rW9.exit_time = ⟨0, 660⟩ ∧
    sW9'.pos = some tW9' ∧ tW9'.time = ⟨0, 660⟩ := by
  refine ⟨?_, rfl, rfl, rfl, rfl⟩
  norm_num [stepRow, resetDay, sectionA, sectionB, closeState, mkRecord,
    resolve_intra_candle, applyBE, is_in_trading_window, round_to_tick,
    roundHalfEven, cfgBase, sW9, tW9, rowSLandSig, sW9', rW9, tW9',
    dirLongOK, dirShortOK]

/-- Claim C9 (amended): only a bar on which the position survives skips
entry evaluation (the position after such a bar is the same trade); a bar
on which an exit occurred falls through to entry evaluation and can open a
new position on that same bar, as the second conjunct exhibits. -/
theorem C9_exit_then_entry :
    (∀ (cfg : StrategyConfig) (s : EngineState) (row : Row)
      (s' : EngineState) (t t' : Trade), s.pos = some t →
      stepRow cfg s row = Except.ok s' → s'.trades = s.trades →
      s'.pos = some t' → t'.id = t.id ∧ t'.time = t.time) ∧
    (stepRow cfgBase sW9 rowSLandSig = Except.ok sW9' ∧
      sW9'.pos = some tW9' ∧ tW9'.time = rW9.exit_time) := by
  constructor
  · intro cfg s row s' t t' hpos hok hsame hpos'
    obtain ⟨dt, high, low, open_p, close_p, _, _, _, _, _, hcase⟩ :=
      stepRow_open_elim cfg s row s' t hpos hok
    rcases hcase with ⟨_, _, hs'⟩ | ⟨_, hB⟩
    · subst hs'
      have h2 : some (applyBE cfg t high low) = some t' := hpos'
      injection h2 with h2
      subst h2
      exact ⟨applyBE_id cfg t high low, applyBE_time cfg t high low⟩
    · exfalso
      obtain ⟨htr, _⟩ := sectionB_ok_shape cfg _ row dt s' hB
      rw [closeState_trades, resetDay_trades, hsame] at htr
      have := congrArg List.length htr
      simp at this
  · refine ⟨?_, rfl, rfl⟩
    norm_num [stepRow, resetDay, sectionA, sectionB, closeState, mkRecord,
      resolve_intra_candle, applyBE, is_in_trading_window, round_to_tick,
      roundHalfEven, cfgBase, sW9, tW9, rowSLandSig, sW9', rW9, tW9',
      dirLongOK, dirShortOK]

def tW9s : Trade := ⟨1, 1, 101, 90, 200, 9, 11, true, ⟨0, 600⟩⟩

def sW9s : EngineState := ⟨[], 0, some 0, some tW9s⟩

theorem C9_exit_then_entry_witness : tW9s.id = tW9s.id ∧ tW9s.time = tW9s.time :=
  C9_exit_then_entry.1 cfgBase sW9s rowQuiet sW9s tW9s tW9s rfl
    (by norm_num [stepRow, resetDay, sectionA, sectionB, closeState, mkRecord,
      resolve_intra_candle, applyBE, is_in_trading_window, round_to_tick,
      roundHalfEven, cfgBase, sW9s, tW9s, rowQuiet, dirLongOK, dirShortOK])
    rfl rfl

def tC2 : Trade := ⟨1, 1, 101, 90, 200, 9, 11, true, ⟨0, 600⟩⟩

def sC2 : EngineState := ⟨[], 3, some 0, some tC2⟩

/-- Quiet bar on the NEXT calendar date (date 1). -/
def rowC2 : Row :=
  { timestamp_ny := some ⟨1, 600⟩
    open_adj := some 100, high_adj := some 102, low_adj := some 99
    close_adj := some 101, sig_long := some false, sig_short := some false
    sl_level := some 90, tp_level := some 200 }

def sC2' : EngineState := ⟨[], 0, some 1, some tC2⟩

/-- Claim C2 (counterexample): the calendar date changes from 0 to 1 while
a position is open, yet the engine closes nothing: the ledger stays empty
and the position stays open; only the per-day counter and last-seen date
are reset.  No Session_Change close exists. -/
theorem C2_counterexample :
    sC2.last_date = some 0 ∧ rowC2.timestamp_ny = some ⟨1, 600⟩ ∧
    sC2.pos = some tC2 ∧
    stepRow cfgBase sC2 rowC2 = Except.ok sC2' ∧
    sC2'.trades = [] ∧ sC2'.pos = some tC2 ∧ sC2'.current_day_trades = 0 := by
  refine ⟨rfl, rfl, rfl, ?_, rfl, rfl, rfl⟩
  norm_num [stepRow, resetDay, sectionA, sectionB, closeState, mkRecord,
    resolve_intra_candle, applyBE, is_in_trading_window, round_to_tick,
    roundHalfEven, cfgBase, sC2, tC2, rowC2, sC2', dirLongOK, dirShortOK]

/-- Claim C2 (amended): when the bar's calendar date differs from the
last-seen date while a position is open, the engine does NOT close it: the
rollover only resets the per-day trade counter and the last-seen date, and
the bar is then processed normally (here: no intrabar exit, before
force_close_time, so the position survives and the ledger is untouched). -/
theorem C2_no_session_close (cfg : StrategyConfig) (s : EngineState)
    (row : Row) (t : Trade) (dt : Timestamp) (high low open_p close_p : ℚ)
    (d0 : ℤ)
    (hpos : s.pos = some t) (hbe : t.be_active = true)
    (hts : row.timestamp_ny = some dt) (hh : row.high_adj = some high)
    (hl : row.low_adj = some low) (ho : row.open_adj = some open_p)
    (hc : row.close_adj = some close_p)
    (hlast : s.last_date = some d0) (hdiff : d0 ≠ dt.date)
    (hres : resolve_intra_candle cfg ⟨open_p, high, low, close_p⟩ t = none)
    (hforce : dt.secs < cfg.force_close_time) :
    ∃ s', stepRow cfg s row = Except.ok s' ∧ s'.pos = some t ∧
      s'.trades = s.trades ∧ s'.current_day_trades = 0 ∧
      s'.last_date = some dt.date := by
  have hreset : resetDay s dt.date =
      { s with current_day_trades := 0, last_date := some dt.date } := by
    unfold resetDay
    rw [hlast]
    simp [hdiff]
  refine ⟨⟨s.trades, 0, some dt.date, some t⟩, ?_, rfl, rfl, rfl, rfl⟩
  simp only [stepRow, hts, hreset]
  simp only [hpos]
  simp only [sectionA, hh, hl, ho, hc, hres,
    applyBE_of_active cfg t high low hbe]
  simp [not_le.mpr hforce]

theorem C2_no_session_close_witness :
    ∃ s', stepRow cfgBase sC2 rowC2 = Except.ok s' ∧ s'.pos = some tC2 ∧
      s'.trades = sC2.trades ∧ s'.current_day_trades = 0 ∧
      s'.last_date = some ((⟨1, 600⟩ : Timestamp)).date :=
  C2_no_session_close cfgBase sC2 rowC2 tC2 ⟨1, 600⟩ 102 99 100 101 0
    rfl rfl rfl rfl rfl rfl rfl rfl (by norm_num)
    (by norm_num [resolve_intra_candle, cfgBase, tC2])
    (by norm_num [cfgBase])

def tC1' : Trade := ⟨1, 1, 101, 90, 200, 9, 11, false, ⟨0, 600⟩⟩

def sC1' : EngineState := ⟨[], 1, some 0, some tC1'⟩

/-- Claim C1 (counterexample): a two-bar feed whose position is opened on
bar 1 and still open after the final bar: the run ends with an open
position and returns an EMPTY ledger — the position is silently dropped;
no ForceClose_EOS entry is appended (no such reason even exists in the
engine). -/
theorem C1_counterexample :
    runStateRows cfgBase [rowSigLong, rowQuiet] = Except.ok sC1' ∧
    sC1'.pos = some tC1' ∧
    runRows cfgBase [rowSigLong, rowQuiet] = Except.ok [] := by
  have h : runStateRows cfgBase [rowSigLong, rowQuiet] = Except.ok sC1' := by
    norm_num [runStateRows, initState, List.foldlM, stepRow, resetDay,
      sectionA, sectionB, closeState, mkRecord, resolve_intra_candle, applyBE,
      is_in_trading_window, round_to_tick, roundHalfEven, cfgBase, rowSigLong,
      rowQuiet, sC1', tC1', dirLongOK, dirShortOK, Bind.bind, Except.bind, Pure.pure, Except.pure]
  exact ⟨h, rfl, by rw [runRows, h]; rfl⟩

/-- Claim C1 (amended): a position still open once the final bar has been
processed is NOT closed and NOT appended: run returns exactly the trades
closed during the replay, and the open position's id appears nowhere in
that ledger. -/
theorem C1_open_position_dropped (cfg : StrategyConfig) (rows : List Row)
    (s : EngineState) (t : Trade)
    (hok : runStateRows cfg rows = Except.ok s) (hpos : s.pos = some t) :
    runRows cfg rows = Except.ok s.trades ∧ ∀ r ∈ s.trades, r.id < t.id := by
  constructor
  · rw [runRows, hok]
    rfl
  · intro r hr
    have hinv := runStateRows_inv cfg rows s hok
    have h1 := hinv.1 t hpos
    have h2 := hinv.2 r hr
    omega

def rW1 : TradeRecord :=
  ⟨1, 0, ⟨0, 600⟩, ⟨0, 660⟩, SideName.Long, 9, 101, 89, -126, -14/11, Reason.SL⟩

def tW1' : Trade := ⟨2, 1, 86, 70, 200, 6, 16, false, ⟨0, 660⟩⟩

def sW1' : EngineState := ⟨[rW1], 2, some 0, some tW1'⟩

theorem C1_open_position_dropped_witness :
    runRows cfgBase [rowSigLong, rowSLandSig] = Except.ok sW1'.trades ∧
    ∀ r ∈ sW1'.trades, r.id < tW1'.id :=
  C1_open_position_dropped cfgBase [rowSigLong, rowSLandSig] sW1' tW1'
    (by norm_num [runStateRows, initState, List.foldlM, stepRow, resetDay,
      sectionA, sectionB, closeState, mkRecord, resolve_intra_candle, applyBE,
      is_in_trading_window, round_to_tick, roundHalfEven, cfgBase, rowSigLong,
      rowSLandSig, sW1', tW1', rW1, dirLongOK, dirShortOK, Bind.bind,
      Except.bind, Pure.pure, Except.pure])
    rfl

def cfgC3 : StrategyConfig := { cfgBase with max_trades_per_day := 1 }

def sC3' : EngineState := ⟨[rW1], 2, some 0, some tW1'⟩

/-- Claim C3 (counterexample): with max_trades_per_day = 1 the engine
still opens TWO positions on calendar date 0 (one closed on bar 2, a new
one opened on that same bar): the per-day counter reaches 2 and the cap is
never consulted. -/
theorem C3_counterexample :
    cfgC3.max_trades_per_day = 1 ∧
    runStateRows cfgC3 [rowSigLong, rowSLandSig] = Except.ok sC3' ∧
    sC3'.current_day_trades = 2 ∧ sC3'.trades.length = 1 ∧
    sC3'.pos = some tW1' := by
  refine ⟨rfl, ?_, rfl, rfl, rfl⟩
  norm_num [runStateRows, initState, List.foldlM, stepRow, resetDay,
    sectionA, sectionB, closeState, mkRecord, resolve_intra_candle, applyBE,
    is_in_trading_window, round_to_tick, roundHalfEven, cfgC3, cfgBase,
    rowSigLong, rowSLandSig, sC3', tW1', rW1, dirLongOK, dirShortOK,
    Bind.bind, Except.bind, Pure.pure, Except.pure]

/-- Claim C3 (amended): max_trades_per_day is never consulted by the
engine: the replay's outcome is identical for every value of the cap; the
per-day counter is maintained for reporting only. -/
theorem C3_cap_not_enforced (cfg : StrategyConfig) (n : ℤ) (rows : List Row) :
    runRows { cfg with max_trades_per_day := n } rows = runRows cfg rows := rfl

def cfgC5 : StrategyConfig := { cfgBase with execution_mode := ExecMode.OHLC }

/-- Short trade with stop 110 and target 90. -/
def tC5 : Trade := ⟨1, -1, 100, 110, 90, 1, 10, true, ⟨0, 0⟩⟩

/-- Claim C5 (evaluation at the failing input): under SequencedOHLC, for a
short position on a bearish bar (open 100, high 111, low 89, close 95)
whose open satisfies neither level, touching both the stop (high 111 ≥ 110)
and the target (low 89 ≤ 90), the code returns TP — although its own
comment says a bearish bar walks open → high → low → close, which reaches
the stop first and should give SL: the short/bearish branch tests the
low-touch before the high-touch. -/
theorem C5_short_bearish_returns_TP :
    resolve_intra_candle cfgC5 ⟨100, 111, 89, 95⟩ tC5 = some Reason.TP ∧
    tC5.ptype = -1 ∧ (95 : ℚ) < 100 ∧ tC5.sl ≤ 111 ∧ (89 : ℚ) ≤ tC5.tp ∧
    ¬(100 : ℚ) ≤ tC5.tp ∧ ¬tC5.sl ≤ (100 : ℚ) := by
  refine ⟨?_, rfl, by norm_num, ?_, ?_, ?_, ?_⟩ <;>
    norm_num [resolve_intra_candle, cfgC5, cfgBase, tC5]

/-- Bar with sig_long and sig_short columns ABSENT, everything else
present. -/
def rowM8 : Row :=
  { timestamp_ny := some ⟨0, 600⟩
    open_adj := some 100, high_adj := some 102, low_adj := some 99
    close_adj := some 100, sig_long := none, sig_short := none
    sl_level := some 90, tp_level := some 200 }

/-- Claim C8 (counterexample): a feed whose bars lack the required
sig_long / sig_short fields replays to completion with an ok empty ledger:
no schema error is raised; the engine infers the missing signal fields as
False. -/
theorem C8_counterexample :
    rowM8.sig_long = none ∧ rowM8.sig_short = none ∧
    runRows cfgBase [rowM8] = Except.ok [] := by
  refine ⟨rfl, rfl, ?_⟩
  norm_num [runRows, runStateRows, initState, List.foldlM, stepRow, resetDay,
    sectionA, sectionB, closeState, mkRecord, resolve_intra_candle, applyBE,
    is_in_trading_window, round_to_tick, roundHalfEven, cfgBase, rowM8,
    dirLongOK, dirShortOK, Bind.bind, Except.bind, Pure.pure, Except.pure,
    Except.map]

/-- Claim C8 (amended): a missing Timestamp_NY column is a fatal KeyError
on the first bar, but missing sig_long / sig_short columns are NOT errors:
the engine silently infers them as False (row.get with default), so a feed
without them replays as if every signal were False. -/
theorem C8_missing_fields (cfg : StrategyConfig) (s : EngineState) (row : Row) :
    (row.timestamp_ny = none →
      stepRow cfg s row = Except.error "KeyError: Timestamp_NY") ∧
    stepRow cfg s { row with sig_long := none, sig_short := none } =
      stepRow cfg s
        { row with sig_long := some false, sig_short := some false } := by
  constructor
  · intro h
    simp only [stepRow, h]
  · rfl

def rowNoTs : Row :=
  { timestamp_ny := none
    open_adj := some 100, high_adj := some 102, low_adj := some 99
    close_adj := some 100, sig_long := some false, sig_short := some false
    sl_level := some 90, tp_level := some 200 }

theorem C8_missing_fields_witness :
    stepRow cfgBase initState rowNoTs = Except.error "KeyError: Timestamp_NY" :=
  (C8_missing_fields cfgBase initState rowNoTs).1 rfl
